import Mathlib

/-!
# Verification of the triage-carebot conversational triage orchestrator

Shallow embedding of the repository's two source files:

* `src/doctor_agent.py` — reply generation: `_shorten_reply`, `build_messages`,
  `doctor_reply` (the Reply Shaper and Inference-Client wrapper).
* `src/main.py` — the `/api/chat` turn handler `chat`, the session store
  `SESSIONS`, the global `message_logs`, and the triage-display table.

Python strings are modelled as Lean `String` / `List Char`; Python dicts with
known keys become structures with `Option` fields where a key may be absent;
the external inference / extraction / triage-evaluation calls (whose modules
are not part of the embedded core) appear as oracle parameters returning
`Except Unit _`, an `Except.error` modelling a raised exception.
Recursion that walks a list while skipping several elements at once is phrased
with an explicit fuel argument equal to the list length, so that every
definition reduces in the kernel.
-/

set_option autoImplicit false
set_option maxRecDepth 8192

namespace Carebot

/-- Python `str.isspace`-style whitespace test restricted to the ASCII
whitespace characters that `str.strip()` removes. -/
def isPyWS (c : Char) : Bool :=
  c == ' ' || c == '\t' || c == '\n' || c == '\r' || c == '\x0b' || c == '\x0c'

/-- The character set `[.!?]` of the sentence-boundary regex in
`_shorten_reply` (`src/doctor_agent.py`, line 22). -/
def isSentEnd (c : Char) : Bool :=
  c == '.' || c == '!' || c == '?'

/-- Python `text.strip()` on the character list. -/
def pyStripL (l : List Char) : List Char :=
  ((l.dropWhile isPyWS).reverse.dropWhile isPyWS).reverse

/-- Python `text.strip()` on strings. -/
def pyStrip (s : String) : String :=
  String.mk (pyStripL s.data)

/-- Whether the head of the accumulated (reversed) sentence is a
sentence-terminal character: the `(?<=[.!?])` lookbehind. -/
def prevIsSentEnd (acc : List Char) : Bool :=
  match acc with
  | p :: _ => isSentEnd p
  | [] => false

/-- Fuel-indexed worker for `re.split(r'(?<=[.!?]) +', text)`: a maximal run
of space characters immediately preceded by `.`, `!` or `?` is a boundary and
is consumed.  `acc` is the current piece, reversed.  The fuel is only an
embedding device; with fuel ≥ length of the input the zero-fuel arm is never
reached. -/
def splitSentAuxF : Nat → List Char → List Char → List (List Char)
  | 0, l, acc => [acc.reverse ++ l]
  | _ + 1, [], acc => [acc.reverse]
  | n + 1, c :: rest, acc =>
    if c == ' ' && prevIsSentEnd acc then
      acc.reverse :: splitSentAuxF n (rest.dropWhile (fun d => d == ' ')) []
    else
      splitSentAuxF n rest (c :: acc)

/-- `re.split(r'(?<=[.!?]) +', ·)` from `_shorten_reply`. -/
def splitSentences (l : List Char) : List (List Char) :=
  splitSentAuxF l.length l []

/-- Python `" ".join(pieces)`. -/
def joinSp : List (List Char) → List Char
  | [] => []
  | [p] => p
  | p :: q :: rest => p ++ ' ' :: joinSp (q :: rest)

/-- `_shorten_reply(text, max_sentences=4)` from `src/doctor_agent.py`:
empty input returns `""`; otherwise the stripped text is split at
sentence-terminal punctuation followed by one or more spaces, the first
4 sentences are kept and joined with single spaces. -/
def shortenReply (text : String) : String :=
  if text = "" then ""
  else String.mk (joinSp ((splitSentences (pyStripL text.data)).take 4))

/-- Python `pat in s` substring test (here with the pattern first). -/
def containsSub (pat : List Char) : List Char → Bool
  | [] => pat.isEmpty
  | c :: rest => pat.isPrefixOf (c :: rest) || containsSub pat rest

/-- Python `pat in s` on strings. -/
def containsStr (s pat : String) : Bool :=
  containsSub pat.data s.data

/-- Fuel-indexed worker for `s.replace(pat, "")`: left-to-right removal of
non-overlapping occurrences of `pat`.  Fuel ≥ length of the input makes the
zero-fuel arm unreachable. -/
def pyRemoveAllF (pat : List Char) : Nat → List Char → List Char
  | 0, l => l
  | _ + 1, [] => []
  | n + 1, c :: rest =>
    if pat.isPrefixOf (c :: rest) then pyRemoveAllF pat n ((c :: rest).drop pat.length)
    else c :: pyRemoveAllF pat n rest

/-- Python `s.replace(pat, "")`: every occurrence of `pat` removed. -/
def pyRemoveAll (pat l : List Char) : List Char :=
  pyRemoveAllF pat l.length l

/-- The literal completion marker of `doctor_reply`. -/
def MARKER : String := "<END_CONVO>"

/-- Lines 82–88 of `src/doctor_agent.py` (the Reply Shaper of spec §4.2):
`reply = _shorten_reply(raw_reply)`, then
`end_convo = "<END_CONVO>" in reply`, then
`reply = reply.replace("<END_CONVO>", "").strip()`; returns
`(reply, end_convo)`. -/
def shape (raw : String) : String × Bool :=
  let reply := shortenReply raw
  let end_convo := containsSub MARKER.data reply.data
  (String.mk (pyStripL (pyRemoveAll MARKER.data reply.data)), end_convo)

/-- Outcome of the `ollama.chat` backend call inside `doctor_reply`:
a successful response carrying the extracted
`response.get('message', {}).get('content', '')` text (an absent field reads
as `""`), an `ollama.ResponseError` with its message text, or any other
exception. -/
inductive OllamaOutcome where
  | success (content : String)
  | responseError (msg : String)
  | otherError
  deriving DecidableEq

/-- `doctor_reply` from `src/doctor_agent.py` as a function of the backend
outcome: an empty successful response and each class of exception yield their
fixed fallback replies with completion flag `False`; a non-empty response is
passed through the Reply Shaper. -/
def doctor_reply (outcome : OllamaOutcome) : String × Bool :=
  match outcome with
  | .success raw =>
    if raw = "" then
      ("I'm sorry, I didn't receive a proper response. Could you rephrase your question?", false)
    else
      shape raw
  | .responseError msg =>
    if containsStr msg "system memory" then
      ("Mistral requires more RAM. Close other applications and try again.", false)
    else
      ("The AI model encountered an error. Please try again.", false)
  | .otherError =>
    ("I'm having trouble processing your request. Please try again.", false)

/-- The `SYSTEM_PROMPT` string of `src/doctor_agent.py`. -/
def SYSTEM_PROMPT : String :=
  "You are a compassionate general practice physician.\nYour replies must be short, clear, and focused — no more than 3–4 sentences.\nAsk open-ended questions first, then clarifying questions.\nUse empathetic, non-alarming language. Avoid jargon or explain it simply.\nDo not give a definitive diagnosis — focus on understanding symptoms, severity, timing, and red flags.\nWhen provided a triage_context, deliver it clearly and explain next steps.\nAvoid unnecessary repetition or filler words.\nIf you believe the consultation is complete, end your response with the token <END_CONVO>.\n"

/-- A history entry as `build_messages` reads it: a Python dict whose
`role`, `content` and `message` keys may each be absent (`none`). -/
structure PyDictMsg where
  role : Option String
  content : Option String
  message : Option String
  deriving DecidableEq

/-- A message sent to the inference backend: `{"role": ..., "content": ...}`. -/
structure BackendMsg where
  role : String
  content : String
  deriving DecidableEq

/-- `m.get("content") or m.get("message") or ""` — Python `or` falls through
on `None` and on the empty string. -/
def pyGetContent (m : PyDictMsg) : String :=
  match m.content with
  | some s => if s == "" then (match m.message with | some t => t | none => "") else s
  | none => match m.message with | some t => t | none => ""

/-- The `for m in message_history` loop body of `build_messages`
(`src/doctor_agent.py`, lines 29–40): empty-content entries are skipped,
`user`/`patient` roles normalise to `user`, `assistant`/`doctor` to
`assistant`, and any other role is skipped. -/
def buildLoop : List PyDictMsg → List BackendMsg
  | [] => []
  | m :: rest =>
    let role := m.role.getD "user"
    let content := pyGetContent m
    if content == "" then buildLoop rest
    else if role == "user" || role == "patient" then ⟨"user", content⟩ :: buildLoop rest
    else if role == "assistant" || role == "doctor" then ⟨"assistant", content⟩ :: buildLoop rest
    else buildLoop rest

/-- `build_messages(message_history, triage_context=None)` from
`src/doctor_agent.py`: the fixed system message, then the normalised history,
then an optional trailing triage-context system message (added only when
`triage_context` is truthy). -/
def build_messages (message_history : List PyDictMsg) (triage_context : Option String) :
    List BackendMsg :=
  let base := ⟨"system", SYSTEM_PROMPT⟩ :: buildLoop message_history
  match triage_context with
  | some tc => if tc == "" then base else base ++ [⟨"system", "Triage context: " ++ tc⟩]
  | none => base

/-! ## The `/api/chat` turn handler of `src/main.py` -/

/-- An entry of a session's turn list in `SESSIONS`
(`{"role": ..., "content": ...}`, roles `"user"` / `"assistant"`). -/
structure ChatMsg where
  role : String
  content : String
  deriving DecidableEq

/-- An entry of the global `message_logs` list
(`{"role": ..., "message": ...}`, roles `"patient"` / `"doctor"`). -/
structure LogMsg where
  role : String
  message : String
  deriving DecidableEq

/-- The `SimpleChatRequest` model of `src/main.py`
(`message: str`, `session_id: str = None`). -/
structure SimpleChatRequest where
  message : String
  session_id : Option String
  deriving DecidableEq

/-- The mutable module-level state of `src/main.py` read and written by
`chat`: the `SESSIONS` dict (session id → turn list, `none` for an id not in
the dict) and the single global `message_logs` list. -/
structure ServerState where
  sessions : String → Option (List ChatMsg)
  message_logs : List LogMsg

/-- The structured symptom record returned by the external
`extract_structured` capability: a mapping from field name to extracted value
(spec §3, StructuredRecord); `chat` only passes it through, so the field-value
representation is immaterial.  The empty mapping is `[]`. -/
def StructuredRecord : Type := List (String × String)

instance : DecidableEq StructuredRecord := by
  unfold StructuredRecord; infer_instance

/-- The dict returned by the external `evaluate_triage` capability, as `chat`
reads it with `verified.get("level", ...)` / `verified.get("reason", ...)`:
either key may be absent. -/
structure PyTriage where
  level : Option String
  reason : Option String
  deriving DecidableEq

/-- A rule of the guideline ruleset (spec §4.5); `chat` always passes the
empty rule list, so rules carry no interpreted structure here. -/
structure GuidelineRule where
  deriving DecidableEq

/-- Modelled from the spec: `guideline_verifier.verify` is imported by
`src/main.py` but its module is not part of the embedded source.  Spec §4.5:
"With an empty ruleset this is the identity function — the verdict passes
through unchanged", and `chat` only ever calls it with the empty ruleset. -/
def verify (verdict : PyTriage) (_guideline_rules : List GuidelineRule) : PyTriage :=
  verdict

/-- `sid = req.session_id or f"session-{int(time.time())}"` — Python `or`
falls through on `None` and on the empty string; the clock value is the
`now` parameter. -/
def resolveSid (session_id : Option String) (now : Nat) : String :=
  match session_id with
  | some s => if s = "" then "session-" ++ toString now else s
  | none => "session-" ++ toString now

/-- One line `f"{m['role']}: {m.get('content', '')}"` of the transcript. -/
def convLine (m : ChatMsg) : String :=
  m.role ++ ": " ++ m.content

/-- `"\n".join(...)` over the rendered turn lines. -/
def convJoin : List ChatMsg → String
  | [] => ""
  | [m] => convLine m
  | m :: m2 :: rest => convLine m ++ "\n" ++ convJoin (m2 :: rest)

/-- The four-entry `triage_display` dict literal of `chat`
(`src/main.py`, lines 227–232); `none` models a missing key, for which
`.get(level, {})` yields the empty dict. -/
def triage_display (level : String) : Option (String × String) :=
  if level = "Emergency" then some ("#e63946", "🔴 Emergency — Immediate care required!")
  else if level = "Urgent" then some ("#ff8800", "🟠 Urgent — Needs prompt medical attention.")
  else if level = "Routine" then some ("#2a9d8f", "🟢 Routine — No red flags; symptoms appear non-urgent.")
  else if level = "Normal" then some ("#2a9d8f", "🟢 Normal — Stable, no emergency detected.")
  else none

/-- The Triage Presenter (spec §4.6) as `chat` computes it:
`triage_display.get(level, {}).get("color", "#2a9d8f")` and
`triage_display.get(level, {}).get("status", "🟢 Routine condition")`. -/
def present (level : String) : String × String :=
  ((triage_display level).map Prod.fst |>.getD "#2a9d8f",
   (triage_display level).map Prod.snd |>.getD "🟢 Routine condition")

/-- The `triage_info` dict assembled by `chat`. -/
structure TriageInfo where
  level : String
  reason : String
  color : String
  status : String
  severity_flag : Bool
  deriving DecidableEq

/-- The JSON body returned by `chat`, with `conv_text` additionally recording
the transcript string that was handed to `extract_structured` (exposed so the
extraction input is observable in the embedding). -/
structure ChatResponse where
  success : Bool
  response : String
  triage : TriageInfo
  structured : StructuredRecord
  conv_text : String
  deriving DecidableEq

/-- The fixed fallback verdict substituted when `evaluate_triage` raises. -/
def fallbackTriage : PyTriage :=
  ⟨some "Routine", some "No red flags found; symptoms appear non-urgent."⟩

/-- Lines 194–203 of `src/main.py`: the `try`/`except` around the
`run_in_threadpool(doctor_reply, ...)` call — on an exception `chat`
substitutes its own fixed fallback reply with severity flag `False`. -/
def guardDoctor (r : Except Unit OllamaOutcome) : String × Bool :=
  match r with
  | .ok outcome => doctor_reply outcome
  | .error _ =>
    ("I'm here to help with your health concerns. Can you tell me more about your symptoms?",
     false)

/-- Lines 212–215 of `src/main.py`: the `try`/`except` around
`extract_structured` — on an exception the empty record is used. -/
def guardExtract (r : Except Unit StructuredRecord) : StructuredRecord :=
  match r with
  | .ok v => v
  | .error _ => ([] : StructuredRecord)

/-- Lines 217–220 of `src/main.py`: the `try`/`except` around
`evaluate_triage` — on an exception the fixed Routine fallback verdict is
used. -/
def guardTriage (r : Except Unit PyTriage) : PyTriage :=
  match r with
  | .ok v => v
  | .error _ => fallbackTriage

/-- Lines 225–240 of `src/main.py`: `level = verified.get("level", "Routine")`,
`reason = verified.get("reason", ...)`, and the `triage_info` dict with
color/status looked up through `triage_display` (the `present` map) and the
severity flag carried over from reply generation. -/
def displayOf (verified : PyTriage) (severity_flag : Bool) : TriageInfo :=
  let level := verified.level.getD "Routine"
  let reason := verified.reason.getD "No red flags found; symptoms appear non-urgent."
  ⟨level, reason, (present level).1, (present level).2, severity_flag⟩

/-- The `/api/chat` handler `chat` of `src/main.py` (lines 178–256).

External calls are oracle parameters: `doctorCall` is the guarded
`run_in_threadpool(doctor_reply, ...)` call (`Except.error` = the
`except Exception` branch of `chat`; `Except.ok o` = `doctor_reply`
running against backend outcome `o` — `doctor_reply` itself catches all its
exceptions); `extractCall` and `triageCall` are the guarded
`extract_structured` / `evaluate_triage` calls, as functions of what `chat`
passes them, with `Except.error` selecting the handler's fallback.
`log_session` (from the absent `utils` module) is fire-and-forget
persistence per spec §6 and does not touch this state.

Returns the response body and the updated module state. -/
def chat (req : SimpleChatRequest) (now : Nat)
    (doctorCall : Except Unit OllamaOutcome)
    (extractCall : String → Except Unit StructuredRecord)
    (triageCall : StructuredRecord → Except Unit PyTriage)
    (st : ServerState) : ChatResponse × ServerState :=
  let sid := resolveSid req.session_id now
  let fresh := (st.sessions sid).isNone
  let turns0 := (st.sessions sid).getD []
  let logs0 := if fresh then [] else st.message_logs
  let turns1 := turns0 ++ [⟨"user", req.message⟩]
  let logs1 := logs0 ++ [⟨"patient", req.message⟩]
  let replyFlag := guardDoctor doctorCall
  let reply := replyFlag.1
  let severity_flag := replyFlag.2
  let turns2 := turns1 ++ [⟨"assistant", reply⟩]
  let logs2 := logs1 ++ [⟨"doctor", reply⟩]
  let conv_text := convJoin turns2
  let structured := guardExtract (extractCall conv_text)
  let raw_triage := guardTriage (triageCall structured)
  let verified := verify raw_triage []
  let info := displayOf verified severity_flag
  (⟨true, reply, info, structured, conv_text⟩,
   ⟨fun k => if k = sid then some turns2 else st.sessions k, logs2⟩)

/-! ## Spec-side comparison definitions -/

/-- The sentence splitter as the spec's words describe it ("sentence-terminal
punctuation (`.`, `!`, `?`) followed by whitespace as the boundary"), i.e.
with the boundary run ranging over all whitespace characters rather than only
spaces; kept structurally parallel to `splitSentAuxF` for comparison. -/
def splitSentClaimAuxF : Nat → List Char → List Char → List (List Char)
  | 0, l, acc => [acc.reverse ++ l]
  | _ + 1, [], acc => [acc.reverse]
  | n + 1, c :: rest, acc =>
    if isPyWS c && prevIsSentEnd acc then
      acc.reverse :: splitSentClaimAuxF n (rest.dropWhile isPyWS) []
    else
      splitSentClaimAuxF n rest (c :: acc)

/-- Spec-described sentence split (whitespace boundaries). -/
def splitSentencesClaimed (l : List Char) : List (List Char) :=
  splitSentClaimAuxF l.length l []

/-- The Reply Shaper truncation as the spec's words describe it: split at
punctuation-followed-by-whitespace, keep the first 4 sentences, join with
single spaces; empty input yields empty output. -/
def shortenClaimed (text : String) : String :=
  if text = "" then ""
  else String.mk (joinSp ((splitSentencesClaimed (pyStripL text.data)).take 4))

/-- Outcomes of the `ollama.chat` call that `doctor_reply` treats as
failures: an empty (or absent) response text, an `ollama.ResponseError`, or
any other exception. -/
def isFailureOutcome : OllamaOutcome → Prop
  | .success raw => raw = ""
  | .responseError _ => True
  | .otherError => True

/-- Session turns as `build_messages` receives them from `SESSIONS[sid]`:
dicts with exactly the keys `role` and `content`. -/
def chatMsgToPy (t : ChatMsg) : PyDictMsg :=
  ⟨some t.role, some t.content, none⟩

/-- The four enumerated triage levels (spec §3, TriageVerdict). -/
def isFourLevel (s : String) : Prop :=
  s = "Emergency" ∨ s = "Urgent" ∨ s = "Routine" ∨ s = "Normal"

instance (s : String) : Decidable (isFourLevel s) := by
  unfold isFourLevel; infer_instance

/-- A syntactically valid `DisplayTriage` per the spec's output guarantee:
one of the four levels, non-empty reason, status and color. -/
def validDisplay (t : TriageInfo) : Prop :=
  isFourLevel t.level ∧ t.reason ≠ "" ∧ t.status ≠ "" ∧ t.color ≠ ""

/-! ## Helper lemmas -/

theorem present_ne_empty (level : String) :
    (present level).1 ≠ "" ∧ (present level).2 ≠ "" := by
  unfold present triage_display
  split_ifs <;> exact ⟨by decide, by decide⟩

theorem pyRemoveAllF_of_not_contains (pat : List Char) :
    ∀ (n : Nat) (l : List Char), containsSub pat l = false → pyRemoveAllF pat n l = l := by
  intro n
  induction n with
  | zero => intro l _; rfl
  | succ n ih =>
    intro l h
    cases l with
    | nil => rfl
    | cons c rest =>
      simp only [containsSub, Bool.or_eq_false_iff] at h
      simp only [pyRemoveAllF, h.1, Bool.false_eq_true, if_false]
      exact congrArg (c :: ·) (ih rest h.2)

theorem pyRemoveAll_of_not_contains {pat l : List Char} (h : containsSub pat l = false) :
    pyRemoveAll pat l = l :=
  pyRemoveAllF_of_not_contains pat l.length l h

theorem mem_of_dropWhile {p : Char → Bool} {l : List Char} {c : Char}
    (h : c ∈ l.dropWhile p) : c ∈ l := by
  induction l with
  | nil => simp at h
  | cons a rest ih =>
    cases hp : p a with
    | true =>
      simp only [List.dropWhile, hp] at h
      exact List.mem_cons_of_mem _ (ih h)
    | false =>
      simp only [List.dropWhile, hp] at h
      exact h

theorem mem_of_pyStripL {l : List Char} {c : Char} (h : c ∈ pyStripL l) : c ∈ l := by
  unfold pyStripL at h
  rw [List.mem_reverse] at h
  have h2 := mem_of_dropWhile h
  rw [List.mem_reverse] at h2
  exact mem_of_dropWhile h2

theorem dropWhile_space_eq {l : List Char} (h : ∀ c ∈ l, isPyWS c = true → c = ' ') :
    l.dropWhile (fun d => d == ' ') = l.dropWhile isPyWS := by
  induction l with
  | nil => rfl
  | cons c rest ih =>
    have hrest : ∀ d ∈ rest, isPyWS d = true → d = ' ' :=
      fun d hd => h d (List.mem_cons_of_mem _ hd)
    by_cases hc : c = ' '
    · subst hc
      simp only [List.dropWhile]
      norm_num [isPyWS]
      exact ih hrest
    · have hO : isPyWS c = false := by
        cases hw : isPyWS c
        · rfl
        · exact absurd (h c (List.mem_cons_self c rest) hw) hc
      have hB : (c == ' ') = false := by
        cases hb : c == ' '
        · rfl
        · exact absurd (eq_of_beq hb) hc
      simp only [List.dropWhile, hO, hB]

theorem splitAux_claim_eq :
    ∀ (n : Nat) (l acc : List Char), (∀ c ∈ l, isPyWS c = true → c = ' ') →
      splitSentAuxF n l acc = splitSentClaimAuxF n l acc := by
  intro n
  induction n with
  | zero => intro l acc _; rfl
  | succ n ih =>
    intro l acc h
    cases l with
    | nil => rfl
    | cons c rest =>
      have hrest : ∀ d ∈ rest, isPyWS d = true → d = ' ' :=
        fun d hd => h d (List.mem_cons_of_mem _ hd)
      by_cases hc : c = ' '
      · subst hc
        simp only [splitSentAuxF, splitSentClaimAuxF]
        have h2 : isPyWS ' ' = true := by decide
        rw [show ((' ' : Char) == ' ') = true from by decide, h2]
        cases hp : prevIsSentEnd acc
        · simp only [Bool.and_false, Bool.false_eq_true, if_false]
          exact ih rest (' ' :: acc) hrest
        · simp only [Bool.and_true, if_true]
          rw [dropWhile_space_eq hrest]
          exact congrArg (acc.reverse :: ·)
            (ih _ [] (fun d hd => hrest d (mem_of_dropWhile hd)))
      · have hO : isPyWS c = false := by
          cases hw : isPyWS c
          · rfl
          · exact absurd (h c (List.mem_cons_self c rest) hw) hc
        have hB : (c == ' ') = false := by
          cases hb : c == ' '
          · rfl
          · exact absurd (eq_of_beq hb) hc
        simp only [splitSentAuxF, splitSentClaimAuxF, hO, hB, Bool.false_and,
          Bool.false_eq_true, if_false]
        exact ih rest (c :: acc) hrest

/-- On inputs whose only whitespace characters are plain spaces, the
implemented truncation and the spec-described truncation agree. -/
theorem shorten_eq_claimed (s : String) (h : ∀ c ∈ s.data, isPyWS c = true → c = ' ') :
    shortenReply s = shortenClaimed s := by
  unfold shortenReply shortenClaimed
  by_cases hs : s = ""
  · rw [if_pos hs, if_pos hs]
  · rw [if_neg hs, if_neg hs]
    have : splitSentences (pyStripL s.data) = splitSentencesClaimed (pyStripL s.data) :=
      splitAux_claim_eq _ _ _ (fun c hc => h c (mem_of_pyStripL hc))
    rw [this]

theorem intercalate_go_append (s : String) :
    ∀ (as : List String) (a acc : String),
      String.intercalate.go acc s (a :: as) = acc ++ s ++ String.intercalate.go a s as := by
  intro as
  induction as with
  | nil => intro a acc; rfl
  | cons a2 as2 ih =>
    intro a acc
    show String.intercalate.go (acc ++ s ++ a) s (a2 :: as2) =
      acc ++ s ++ String.intercalate.go a s (a2 :: as2)
    rw [ih a2 (acc ++ s ++ a), ih a2 a]
    simp [String.append_assoc]

theorem intercalate_cons_cons (s a b : String) (rest : List String) :
    String.intercalate s (a :: b :: rest) = a ++ s ++ String.intercalate s (b :: rest) :=
  intercalate_go_append s rest b a

/-- `convJoin` is the newline-join of the turns rendered as
`role: content` lines. -/
theorem convJoin_eq_intercalate (ts : List ChatMsg) :
    convJoin ts = String.intercalate "\n" (ts.map (fun m => m.role ++ ": " ++ m.content)) := by
  induction ts with
  | nil => rfl
  | cons m rest ih =>
    cases rest with
    | nil => rfl
    | cons m2 rest2 =>
      show convLine m ++ "\n" ++ convJoin (m2 :: rest2) =
        String.intercalate "\n" ((m :: m2 :: rest2).map (fun x => x.role ++ ": " ++ x.content))
      rw [ih]
      exact (intercalate_cons_cons "\n" (convLine m) (convLine m2)
        (rest2.map (fun x => x.role ++ ": " ++ x.content))).symm

/-- The TriageInfo that `chat` assembles is a valid display whatever the
guarded evaluator call returned, provided every successful evaluator verdict
carries one of the four levels and a non-empty effective reason. -/
theorem validDisplay_displayOf (E : Except Unit PyTriage) (flag : Bool)
    (h : ∀ v, E = Except.ok v → isFourLevel (v.level.getD "Routine") ∧
      v.reason.getD "No red flags found; symptoms appear non-urgent." ≠ "") :
    validDisplay (displayOf (verify (guardTriage E) []) flag) := by
  cases E with
  | ok v =>
    obtain ⟨h1, h2⟩ := h v rfl
    exact ⟨h1, h2, (present_ne_empty _).2, (present_ne_empty _).1⟩
  | error e =>
    refine ⟨?_, ?_, ?_, ?_⟩
    · exact Or.inr (Or.inr (Or.inl rfl))
    · show ("No red flags found; symptoms appear non-urgent." : String) ≠ ""
      decide
    · show (present "Routine").2 ≠ ""
      exact (present_ne_empty "Routine").2
    · show (present "Routine").1 ≠ ""
      exact (present_ne_empty "Routine").1
/-! ## Claim theorems -/

/-- C3: the reply shaper truncates first and detects the literal marker
`<END_CONVO>` only in the truncated text: if the marker occurs in the
truncated reply, every occurrence is removed, surrounding whitespace is
trimmed and the completion flag is true (the given example evaluates to
`("Take rest.", true)`); if the marker sits beyond the 4-sentence cutoff the
flag is false. -/
theorem shape_truncates_then_detects (raw : String) :
    (containsSub MARKER.data (shortenReply raw).data = true →
      shape raw =
        (String.mk (pyStripL (pyRemoveAll MARKER.data (shortenReply raw).data)), true)) ∧
    (containsSub MARKER.data (shortenReply raw).data = false → (shape raw).2 = false) ∧
    shape "Take rest. <END_CONVO>" = ("Take rest.", true) ∧
    (shape "A. B. C. D. E. <END_CONVO>").2 = false := by
  refine ⟨?_, ?_, by decide, by decide⟩
  · intro h
    show (String.mk (pyStripL (pyRemoveAll MARKER.data (shortenReply raw).data)),
        containsSub MARKER.data (shortenReply raw).data) = _
    rw [h]
  · intro h
    show containsSub MARKER.data (shortenReply raw).data = false
    exact h

/-- C3 witness: the conditional parts of `shape_truncates_then_detects`
discharged at concrete replies. -/
theorem shape_truncates_then_detects_witness :
    shape "Take rest. <END_CONVO>" =
      (String.mk (pyStripL (pyRemoveAll MARKER.data
        (shortenReply "Take rest. <END_CONVO>").data)), true) ∧
    (shape "See you soon.").2 = false :=
  ⟨(shape_truncates_then_detects "Take rest. <END_CONVO>").1 (by decide),
   (shape_truncates_then_detects "See you soon.").2.1 (by decide)⟩

/-- C4 counterexample: the split boundary is punctuation followed by *space*
characters only, not arbitrary whitespace.  On a five-sentence input whose
sentences are separated by newlines the code performs no split at all and
returns the input unchanged, while the claimed whitespace-boundary splitter
would keep only the first four sentences. -/
theorem shorten_whitespace_cex :
    shortenReply "a.\nb.\nc.\nd.\ne." = "a.\nb.\nc.\nd.\ne." ∧
    shortenClaimed "a.\nb.\nc.\nd.\ne." = "a. b. c. d." ∧
    shortenReply "a.\nb.\nc.\nd.\ne." ≠ "a. b. c. d." := by
  decide

/-- C4 amended: `_shorten_reply` splits at sentence-terminal punctuation
followed by one or more *space* characters, keeps at most the first 4
sentences joined with single spaces, and returns `""` on empty input; on any
input whose whitespace consists of plain spaces it agrees with the
spec-described whitespace-boundary splitter. -/
theorem shorten_spec_amended :
    shortenReply "" = "" ∧
    shortenReply "One. Two! Three? Four. Five. Six." = "One. Two! Three? Four." ∧
    ∀ s : String, (∀ c ∈ s.data, isPyWS c = true → c = ' ') →
      shortenReply s = shortenClaimed s :=
  ⟨by decide, by decide, shorten_eq_claimed⟩

/-- C4 amended witness: the congruence applied to a concrete space-separated
input. -/
theorem shorten_spec_amended_witness :
    shortenReply "Hi there. How long? Rest now." = shortenClaimed "Hi there. How long? Rest now." :=
  shorten_spec_amended.2.2 "Hi there. How long? Rest now." (by decide)

/-- C5 counterexample: there is no single fixed fallback reply — an empty
backend response and a backend error response produce different fallback
texts (both with completion flag false). -/
theorem doctor_fallback_cex :
    (doctor_reply (.success "")).1 ≠ (doctor_reply (.responseError "boom")).1 ∧
    (doctor_reply (.success "")).2 = false ∧
    (doctor_reply (.responseError "boom")).2 = false := by
  decide

/-- C5 amended: every failure of the inference backend call (empty response,
response error, or any other exception) makes `doctor_reply` return one of
four fixed apologetic fallback replies — selected by the failure kind — with
completion flag false; and if the `doctor_reply` call itself raises, `chat`
substitutes its own fixed fallback reply, also with severity flag false. -/
theorem doctor_fallback_amended :
    (∀ o : OllamaOutcome, isFailureOutcome o →
      (doctor_reply o).2 = false ∧
      ((doctor_reply o).1 =
          "I'm sorry, I didn't receive a proper response. Could you rephrase your question?" ∨
       (doctor_reply o).1 = "Mistral requires more RAM. Close other applications and try again." ∨
       (doctor_reply o).1 = "The AI model encountered an error. Please try again." ∨
       (doctor_reply o).1 = "I'm having trouble processing your request. Please try again.")) ∧
    (∀ (req : SimpleChatRequest) (now : Nat)
        (extractCall : String → Except Unit StructuredRecord)
        (triageCall : StructuredRecord → Except Unit PyTriage) (st : ServerState),
      (chat req now (.error ()) extractCall triageCall st).1.response =
        "I'm here to help with your health concerns. Can you tell me more about your symptoms?" ∧
      (chat req now (.error ()) extractCall triageCall st).1.triage.severity_flag = false) := by
  constructor
  · intro o ho
    cases o with
    | success raw =>
      have : raw = "" := ho
      subst this
      exact ⟨rfl, Or.inl rfl⟩
    | responseError msg =>
      cases hm : containsStr msg "system memory" with
      | true => simp [doctor_reply, hm]
      | false => simp [doctor_reply, hm]
    | otherError =>
      exact ⟨rfl, Or.inr (Or.inr (Or.inr rfl))⟩
  · intro req now extractCall triageCall st
    exact ⟨rfl, rfl⟩

/-- C5 amended witness: the failure cases discharged at a concrete outcome
and a concrete request. -/
theorem doctor_fallback_amended_witness :
    ((doctor_reply .otherError).2 = false ∧
      ((doctor_reply .otherError).1 =
          "I'm sorry, I didn't receive a proper response. Could you rephrase your question?" ∨
       (doctor_reply .otherError).1 =
          "Mistral requires more RAM. Close other applications and try again." ∨
       (doctor_reply .otherError).1 = "The AI model encountered an error. Please try again." ∨
       (doctor_reply .otherError).1 =
          "I'm having trouble processing your request. Please try again.")) ∧
    (chat ⟨"hi", some "w5"⟩ 0 (.error ()) (fun _ => .error ()) (fun _ => .error ())
        ⟨fun _ => none, []⟩).1.response =
      "I'm here to help with your health concerns. Can you tell me more about your symptoms?" :=
  ⟨doctor_fallback_amended.1 .otherError trivial,
   (doctor_fallback_amended.2 ⟨"hi", some "w5"⟩ 0 (fun _ => .error ()) (fun _ => .error ())
     ⟨fun _ => none, []⟩).1⟩

/-- C6 counterexample: for an unrecognized level the fallback color is
Routine's color, but the fallback status is the distinct fixed string
`"🟢 Routine condition"`, not Routine's status — so the fallback is not
"Routine's color and status". -/
theorem present_fallback_cex :
    present "Critical" = ("#2a9d8f", "🟢 Routine condition") ∧
    (present "Critical").1 = (present "Routine").1 ∧
    (present "Critical").2 ≠ (present "Routine").2 := by
  decide

/-- C6 amended: `present` is total; each of the four enumerated levels gets a
non-empty color and status, and any other level gets the fixed fallback pair
(Routine's color together with the fallback status `"🟢 Routine condition"`,
which differs from Routine's status). -/
theorem present_total_amended :
    ((present "Emergency").1 ≠ "" ∧ (present "Emergency").2 ≠ "") ∧
    ((present "Urgent").1 ≠ "" ∧ (present "Urgent").2 ≠ "") ∧
    ((present "Routine").1 ≠ "" ∧ (present "Routine").2 ≠ "") ∧
    ((present "Normal").1 ≠ "" ∧ (present "Normal").2 ≠ "") ∧
    ∀ level : String, ¬ isFourLevel level →
      present level = ((present "Routine").1, "🟢 Routine condition") := by
  refine ⟨by decide, by decide, by decide, by decide, ?_⟩
  intro level h
  unfold isFourLevel at h
  push_neg at h
  obtain ⟨h1, h2, h3, h4⟩ := h
  simp [present, triage_display, h1, h2, h3, h4]

/-- C6 amended witness: the fallback branch discharged at a concrete
unrecognized level. -/
theorem present_total_amended_witness :
    present "Critical" = ((present "Routine").1, "🟢 Routine condition") :=
  present_total_amended.2.2.2.2 "Critical" (by decide)

/-- C9 counterexample: the shaper is not idempotent on all of its marker-free
outputs of at most 4 sentences.  Removing an interior marker leaves a double
space, and a second application of the shaper collapses it. -/
theorem shape_idempotence_cex :
    (shape "Rest. <END_CONVO> Drink water.").1 = "Rest.  Drink water." ∧
    containsStr "Rest.  Drink water." MARKER = false ∧
    (splitSentences ("Rest.  Drink water.").data).length ≤ 4 ∧
    (shape "Rest.  Drink water.").1 ≠ "Rest.  Drink water." := by
  decide

/-- C9 amended: the shaper is idempotent on marker-free, whitespace-trimmed
texts that the truncation step leaves unchanged (at most 4 sentences with
single-space boundaries): on such a text it returns the text itself with
completion flag false.  Outputs in which marker removal left a double space
are not such fixed points. -/
theorem shape_idempotent_amended (t : String)
    (hstrip : pyStrip t = t) (hfix : shortenReply t = t)
    (hmark : containsStr t MARKER = false) :
    shape t = (t, false) := by
  show (String.mk (pyStripL (pyRemoveAll MARKER.data (shortenReply t).data)),
      containsSub MARKER.data (shortenReply t).data) = (t, false)
  rw [hfix]
  have hm : containsSub MARKER.data t.data = false := hmark
  rw [hm, pyRemoveAll_of_not_contains hm]
  show (pyStrip t, false) = (t, false)
  rw [hstrip]

/-- C9 amended witness: idempotence at a concrete already-shaped text. -/
theorem shape_idempotent_amended_witness :
    shape "Rest. Drink water." = ("Rest. Drink water.", false) :=
  shape_idempotent_amended "Rest. Drink water." (by decide) (by decide) (by decide)

/-- C1: for every request, session state and combination of backend-call
outcomes, `chat` completes the turn and returns a success response whose
triage display has one of the four levels and non-empty reason, status and
color.  The embedding makes `chat` a total function, so no modelled stage
failure aborts the turn; inference, extraction and evaluation failures are
the `Except.error` cases, all handled by fallbacks.  The hypothesis is the
contract of the external (spec-modelled) Triage Evaluator: a *successful*
evaluation carries one of the four levels and a non-empty reason; it is
vacuous when every backend call fails. -/
theorem chat_always_returns_valid_display
    (req : SimpleChatRequest) (now : Nat) (doctorCall : Except Unit OllamaOutcome)
    (extractCall : String → Except Unit StructuredRecord)
    (triageCall : StructuredRecord → Except Unit PyTriage) (st : ServerState)
    (hEval : ∀ s v, triageCall s = Except.ok v →
      isFourLevel (v.level.getD "Routine") ∧
      v.reason.getD "No red flags found; symptoms appear non-urgent." ≠ "") :
    (chat req now doctorCall extractCall triageCall st).1.success = true ∧
    validDisplay (chat req now doctorCall extractCall triageCall st).1.triage :=
  ⟨rfl, validDisplay_displayOf _ _ (fun v hv => hEval _ v hv)⟩

/-- C1 witness: total backend failure — the doctor call, the extractor and
the evaluator all raise — still yields a valid display. -/
theorem chat_always_returns_valid_display_witness :
    (chat ⟨"I feel dizzy", none⟩ 0 (.error ()) (fun _ => .error ()) (fun _ => .error ())
        ⟨fun _ => none, []⟩).1.success = true ∧
    validDisplay (chat ⟨"I feel dizzy", none⟩ 0 (.error ()) (fun _ => .error ())
        (fun _ => .error ()) ⟨fun _ => none, []⟩).1.triage :=
  chat_always_returns_valid_display ⟨"I feel dizzy", none⟩ 0 (.error ())
    (fun _ => .error ()) (fun _ => .error ()) ⟨fun _ => none, []⟩
    (fun _ _ hv => nomatch hv)

/-- C2 counterexample: the transcript handed to the extractor uses the stored
role names `user`/`assistant`, not `patient`/`doctor`. -/
theorem conv_text_roles_cex :
    (chat ⟨"hi", some "s2"⟩ 0 (.ok (.success "Hello there."))
        (fun _ => .error ()) (fun _ => .error ()) ⟨fun _ => none, []⟩).1.conv_text =
      "user: hi\nassistant: Hello there." ∧
    (chat ⟨"hi", some "s2"⟩ 0 (.ok (.success "Hello there."))
        (fun _ => .error ()) (fun _ => .error ()) ⟨fun _ => none, []⟩).1.conv_text ≠
      "patient: hi\ndoctor: Hello there." := by
  decide

/-- C2 amended: for every session state — with or without prior turns — the
transcript handed to the extractor is the session's post-append turn list
(the prior turns, then the new patient turn, then the new doctor turn)
rendered as `role: text` lines joined by newlines, where the rendered speaker
names are the stored lowercase role names — `user` and `assistant` for the
turns `chat` appends — not `patient` and `doctor`. -/
theorem conv_text_amended
    (req : SimpleChatRequest) (now : Nat) (doctorCall : Except Unit OllamaOutcome)
    (extractCall : String → Except Unit StructuredRecord)
    (triageCall : StructuredRecord → Except Unit PyTriage) (st : ServerState) :
    (chat req now doctorCall extractCall triageCall st).1.conv_text =
      String.intercalate "\n"
        (((st.sessions (resolveSid req.session_id now)).getD [] ++
            ([⟨"user", req.message⟩,
              ⟨"assistant", (chat req now doctorCall extractCall triageCall st).1.response⟩] :
              List ChatMsg)).map
          (fun m => m.role ++ ": " ++ m.content)) := by
  rw [← convJoin_eq_intercalate]
  have h : ((st.sessions (resolveSid req.session_id now)).getD [] ++
        [(⟨"user", req.message⟩ : ChatMsg)]) ++
          [(⟨"assistant",
            (chat req now doctorCall extractCall triageCall st).1.response⟩ : ChatMsg)] =
      (st.sessions (resolveSid req.session_id now)).getD [] ++
        ([⟨"user", req.message⟩,
          ⟨"assistant", (chat req now doctorCall extractCall triageCall st).1.response⟩] :
          List ChatMsg) := by
    simp
  rw [← h]
  rfl

/-- C2 amended witness: the rendered transcript at a concrete turn on a
session that already holds two prior turns. -/
theorem conv_text_amended_witness :
    (chat ⟨"hi", some "w2"⟩ 0 (.ok (.success "Hello there."))
        (fun _ => .error ()) (fun _ => .error ())
        ⟨fun k => if k = "w2" then
            some [⟨"user", "earlier"⟩, ⟨"assistant", "Earlier reply."⟩] else none,
         []⟩).1.conv_text =
      String.intercalate "\n"
        ((([⟨"user", "earlier"⟩, ⟨"assistant", "Earlier reply."⟩] : List ChatMsg) ++
            ([⟨"user", "hi"⟩,
              ⟨"assistant",
               (chat ⟨"hi", some "w2"⟩ 0 (.ok (.success "Hello there."))
                 (fun _ => .error ()) (fun _ => .error ())
                 ⟨fun k => if k = "w2" then
                     some [⟨"user", "earlier"⟩, ⟨"assistant", "Earlier reply."⟩] else none,
                  []⟩).1.response⟩] : List ChatMsg)).map
          (fun m => m.role ++ ": " ++ m.content)) :=
  conv_text_amended ⟨"hi", some "w2"⟩ 0 (.ok (.success "Hello there."))
    (fun _ => .error ()) (fun _ => .error ())
    ⟨fun k => if k = "w2" then
        some [⟨"user", "earlier"⟩, ⟨"assistant", "Earlier reply."⟩] else none,
     []⟩

/-- The `build_messages` history loop keeps exactly the non-empty-content
turns, in order, with `user`/`assistant` roles preserved. -/
theorem buildLoop_map (turns : List ChatMsg)
    (h : ∀ t ∈ turns, t.role = "user" ∨ t.role = "assistant") :
    buildLoop (turns.map chatMsgToPy) =
      (turns.filter (fun t => !(t.content == ""))).map
        (fun t => (⟨t.role, t.content⟩ : BackendMsg)) := by
  induction turns with
  | nil => rfl
  | cons t rest ih =>
    have hrest : ∀ x ∈ rest, x.role = "user" ∨ x.role = "assistant" :=
      fun x hx => h x (List.mem_cons_of_mem _ hx)
    have hrole := h t (List.mem_cons_self t rest)
    by_cases hc : t.content = ""
    · simp [buildLoop, chatMsgToPy, pyGetContent, List.filter_cons, hc, ih hrest]
    · rcases hrole with hu | ha
      · simp [buildLoop, chatMsgToPy, pyGetContent, List.filter_cons, hc, hu, ih hrest]
      · simp [buildLoop, chatMsgToPy, pyGetContent, List.filter_cons, hc, ha, ih hrest]

/-- C7 counterexample: `build_messages` omits turns with empty text, so the
history is not replayed with "no turn omitted": for a one-turn history whose
turn has empty content, the backend receives only the system message (1
message instead of 1 + 1). -/
theorem build_messages_omits_empty_cex :
    (build_messages [⟨some "user", some "", none⟩] none).length = 1 ∧
    (build_messages [⟨some "user", some "", none⟩] none).length ≠ 1 + 1 := by
  decide

/-- C7 amended: the messages sent to the backend are the fixed system
instruction followed by the session's turns with their texts unchanged, in
conversation order, except that turns with empty text are omitted. -/
theorem build_messages_replays_nonempty (turns : List ChatMsg)
    (h : ∀ t ∈ turns, t.role = "user" ∨ t.role = "assistant") :
    build_messages (turns.map chatMsgToPy) none =
      ⟨"system", SYSTEM_PROMPT⟩ ::
        (turns.filter (fun t => !(t.content == ""))).map
          (fun t => (⟨t.role, t.content⟩ : BackendMsg)) :=
  congrArg (List.cons (⟨"system", SYSTEM_PROMPT⟩ : BackendMsg)) (buildLoop_map turns h)

/-- C7 amended witness: replay at a concrete history with one empty-text
turn. -/
theorem build_messages_replays_nonempty_witness :
    build_messages
        (([⟨"user", "hi"⟩, ⟨"assistant", ""⟩, ⟨"assistant", "ok"⟩] : List ChatMsg).map
          chatMsgToPy) none =
      ⟨"system", SYSTEM_PROMPT⟩ ::
        (([⟨"user", "hi"⟩, ⟨"assistant", ""⟩, ⟨"assistant", "ok"⟩] : List ChatMsg).filter
            (fun t => !(t.content == ""))).map
          (fun t => (⟨t.role, t.content⟩ : BackendMsg)) :=
  build_messages_replays_nonempty
    ([⟨"user", "hi"⟩, ⟨"assistant", ""⟩, ⟨"assistant", "ok"⟩] : List ChatMsg) (by decide)

/-- C8: every handled turn appends exactly two turns to the resolved
session's list — first the patient (`user`) turn carrying the incoming
message, then the doctor (`assistant`) turn carrying the reply — and leaves
every other session's turn list unchanged. -/
theorem chat_appends_patient_then_doctor
    (req : SimpleChatRequest) (now : Nat) (doctorCall : Except Unit OllamaOutcome)
    (extractCall : String → Except Unit StructuredRecord)
    (triageCall : StructuredRecord → Except Unit PyTriage) (st : ServerState) :
    (chat req now doctorCall extractCall triageCall st).2.sessions
        (resolveSid req.session_id now) =
      some ((st.sessions (resolveSid req.session_id now)).getD [] ++
        [⟨"user", req.message⟩,
         ⟨"assistant", (chat req now doctorCall extractCall triageCall st).1.response⟩]) ∧
    ∀ k : String, k ≠ resolveSid req.session_id now →
      (chat req now doctorCall extractCall triageCall st).2.sessions k = st.sessions k := by
  constructor
  · simp [chat, List.append_assoc]
  · intro k hk
    simp [chat, hk]

/-- C8 witness: the two appends and the frame condition at a concrete
turn. -/
theorem chat_appends_patient_then_doctor_witness :
    (chat ⟨"hi", some "s8"⟩ 0 (.error ()) (fun _ => .error ()) (fun _ => .error ())
        ⟨fun _ => none, []⟩).2.sessions "s8" =
      some [⟨"user", "hi"⟩,
        ⟨"assistant",
          "I'm here to help with your health concerns. Can you tell me more about your symptoms?"⟩] ∧
    (chat ⟨"hi", some "s8"⟩ 0 (.error ()) (fun _ => .error ()) (fun _ => .error ())
        ⟨fun _ => none, []⟩).2.sessions "other" = none := by
  have h := chat_appends_patient_then_doctor ⟨"hi", some "s8"⟩ 0 (.error ())
    (fun _ => .error ()) (fun _ => .error ()) ⟨fun _ => none, []⟩
  exact ⟨h.1, h.2 "other" (by decide)⟩

/-- C10: handling a turn for a session id not yet in the session store clears
the single global `message_logs` list — afterwards it holds only the two
entries of this turn, erasing whatever other sessions had accumulated — while
the session-store entries of all other ids are unchanged. -/
theorem chat_fresh_clears_message_logs
    (req : SimpleChatRequest) (now : Nat) (doctorCall : Except Unit OllamaOutcome)
    (extractCall : String → Except Unit StructuredRecord)
    (triageCall : StructuredRecord → Except Unit PyTriage) (st : ServerState)
    (h : st.sessions (resolveSid req.session_id now) = none) :
    (chat req now doctorCall extractCall triageCall st).2.message_logs =
      [⟨"patient", req.message⟩,
       ⟨"doctor", (chat req now doctorCall extractCall triageCall st).1.response⟩] ∧
    ∀ k : String, k ≠ resolveSid req.session_id now →
      (chat req now doctorCall extractCall triageCall st).2.sessions k = st.sessions k := by
  constructor
  · simp [chat, h]
  · intro k hk
    simp [chat, hk]

/-- C10 witness: a first turn for a fresh session id erases a previously
accumulated log entry while another session's stored turns survive. -/
theorem chat_fresh_clears_message_logs_witness :
    (chat ⟨"hey", some "new"⟩ 0 (.error ()) (fun _ => .error ()) (fun _ => .error ())
        ⟨fun k => if k = "old" then some [⟨"user", "x"⟩] else none,
         [⟨"doctor", "stale"⟩]⟩).2.message_logs =
      [⟨"patient", "hey"⟩,
       ⟨"doctor",
        "I'm here to help with your health concerns. Can you tell me more about your symptoms?"⟩] ∧
    (chat ⟨"hey", some "new"⟩ 0 (.error ()) (fun _ => .error ()) (fun _ => .error ())
        ⟨fun k => if k = "old" then some [⟨"user", "x"⟩] else none,
         [⟨"doctor", "stale"⟩]⟩).2.sessions "old" = some [⟨"user", "x"⟩] := by
  have h := chat_fresh_clears_message_logs ⟨"hey", some "new"⟩ 0 (.error ())
    (fun _ => .error ()) (fun _ => .error ())
    ⟨fun k => if k = "old" then some [⟨"user", "x"⟩] else none, [⟨"doctor", "stale"⟩]⟩
    (by decide)
  exact ⟨h.1, h.2 "old" (by decide)⟩

end Carebot
